import Mathlib

/-!
Shallow embedding of the driver-fatigue detection hook
(`src/hooks/useFaceDetection.ts`) of the driver-alert-ai repository.

Numbers are modelled as exact rationals (the JavaScript values involved are
millisecond integers, counts, and ratios; no operation in the modelled code
depends on floating-point rounding for the claims under study).  Timestamps
are rationals; `Date.now()` values are nonnegative integers in practice.

The mutable `useRef` cells of the hook become the fields of `DetectionState`;
one invocation of the `detect` callback becomes the function `detectStep`,
driven by a `Frame` input that carries the wall-clock time and either the
post-geometry observations of a detected face or `none` for a frame in which
no face was detected.
-/

namespace DriverAlert

/-- The five alert levels, `src/types/fatigue` / `determineAlertLevel`. -/
inductive AlertLevel where
  | critical
  | severe
  | fatigued
  | drowsy
  | alert
deriving DecidableEq, Repr

/-- The blink-pattern classification values of `determineBlinkPattern`. -/
inductive BlinkPattern where
  | normal
  | irregular
  | slow
  | rapid
deriving DecidableEq, Repr

/-- Head pose angles as stored in `FatigueMetrics.headPose`. -/
structure HeadPose where
  pitch : ℚ
  yaw : ℚ
  roll : ℚ
deriving DecidableEq, Repr

/-- The `FatigueMetrics` record of `src/types/fatigue`. -/
structure FatigueMetrics where
  perclos : ℚ
  blinkRate : ℚ
  blinkPattern : BlinkPattern
  yawnCount : ℕ
  yawnFrequency : ℕ
  mouthOpenRatio : ℚ
  headPose : HeadPose
  noddingDetected : Bool
  eyesOpen : Bool
  faceDetected : Bool
deriving DecidableEq, Repr

/-- The `FatigueHistory` entry interface of `useFaceDetection.ts`
(its `timestamp: Date` is modelled as the rational wall-clock time). -/
structure FatigueHistory where
  timestamp : ℚ
  perclos : ℚ
  alertLevel : AlertLevel
  blinkRate : ℚ
  yawnCount : ℕ
deriving DecidableEq, Repr

/-- One entry of `headPoseHistory`: the object `{ pitch, timestamp }`. -/
structure HeadSample where
  pitch : ℚ
  timestamp : ℚ
deriving DecidableEq, Repr

/-- `defaultMetrics` from `useFaceDetection.ts`. -/
def defaultMetrics : FatigueMetrics where
  perclos := 0
  blinkRate := 15
  blinkPattern := .normal
  yawnCount := 0
  yawnFrequency := 0
  mouthOpenRatio := 0
  headPose := { pitch := 0, yaw := 0, roll := 0 }
  noddingDetected := false
  eyesOpen := true
  faceDetected := false

/-- `determineAlertLevel` from `useFaceDetection.ts`: the ordered threshold
cascade mapping a metrics snapshot to an alert level. -/
def determineAlertLevel (m : FatigueMetrics) : AlertLevel :=
  if m.perclos ≥ 70 ∨ (m.noddingDetected ∧ m.perclos ≥ 40) then .critical
  else if m.perclos ≥ 50 ∨ m.yawnFrequency ≥ 5 then .severe
  else if m.perclos ≥ 35 ∨ m.yawnFrequency ≥ 3 then .fatigued
  else if m.perclos ≥ 25 ∨ m.blinkRate < 8 ∨ m.blinkRate > 25 then .drowsy
  else .alert

/-- The consecutive differences `timestamps[i] - timestamps[i-1]` collected by
the `for` loop of `determineBlinkPattern`. -/
def intervalsOf : List ℚ → List ℚ
  | [] => []
  | [_] => []
  | a :: b :: rest => (b - a) :: intervalsOf (b :: rest)

/-- The mean `avgInterval` of `determineBlinkPattern`. -/
def avgIntervalOf (intervals : List ℚ) : ℚ :=
  intervals.sum / intervals.length

/-- The population variance computed by `determineBlinkPattern`:
`intervals.reduce((sum, i) => sum + (i - avg)^2, 0) / intervals.length`. -/
def varianceOf (intervals : List ℚ) : ℚ :=
  (intervals.map (fun i => (i - avgIntervalOf intervals) ^ 2)).sum / intervals.length

/-- `determineBlinkPattern` from `useFaceDetection.ts`. -/
def determineBlinkPattern (rate : ℚ) (timestamps : List ℚ) : BlinkPattern :=
  if timestamps.length < 5 then .normal
  else
    let intervals := intervalsOf timestamps
    if varianceOf intervals > 50000 then .irregular
    else if rate < 8 then .slow
    else if rate > 25 then .rapid
    else .normal

/-- `Math.max(...l)` on a nonempty list (the code only evaluates it when the
pitch window holds more than 10 samples; the `[]` value is never used). -/
def listMax : List ℚ → ℚ
  | [] => 0
  | x :: xs => xs.foldl max x

/-- `Math.min(...l)` on a nonempty list, same caveat as `listMax`. -/
def listMin : List ℚ → ℚ
  | [] => 0
  | x :: xs => xs.foldl min x

/-- JavaScript `Math.round`: round half toward positive infinity. -/
def jsRound (x : ℚ) : ℤ := ⌊x + 1 / 2⌋

/-- The nod-detection computation of `detect`: with strictly more than 10
samples in the pitch window, report whether the pitch range exceeds 15°. -/
def noddingOf (window : List HeadSample) : Bool :=
  if window.length > 10 then
    let pitches := window.map HeadSample.pitch
    decide (listMax pitches - listMin pitches > 15)
  else false

/-- The yawn-recording step of `detect`, executed when `isYawning`:
```
const lastYawn = yawnTimestamps.current[yawnTimestamps.current.length - 1];
if (!lastYawn || now - lastYawn > 5000) { yawnTimestamps.current.push(now); }
```
`!lastYawn` is true when the array is empty (`undefined`) and also when the
last timestamp is the number `0` (JavaScript falsiness). -/
def yawnRecord (timestamps : List ℚ) (now : ℚ) : List ℚ :=
  match timestamps.getLast? with
  | none => timestamps ++ [now]
  | some lastYawn =>
      if lastYawn = 0 ∨ now - lastYawn > 5000 then timestamps ++ [now]
      else timestamps

/-- `prev.slice(-60)` in the history update: the most recent
`min 60 (length prev)` entries. -/
def sliceLast60 (prev : List FatigueHistory) : List FatigueHistory :=
  prev.drop (prev.length - 60)

/-- The history append `[...prev.slice(-60), entry]`. -/
def appendHistory (prev : List FatigueHistory) (e : FatigueHistory) : List FatigueHistory :=
  sliceLast60 prev ++ [e]

/-- The mutable state of one `useFaceDetection` session: the `useRef` cells
plus the published React state (`metrics`, `alertLevel`, `history`). -/
structure DetectionState where
  eyeClosedFrames : ℕ
  totalFrames : ℕ
  blinkTimestamps : List ℚ
  yawnTimestamps : List ℚ
  lastEyeState : Bool
  headPoseHistory : List HeadSample
  lastHistoryUpdate : ℚ
  frameSkip : ℕ
  metrics : FatigueMetrics
  alertLevel : AlertLevel
  history : List FatigueHistory
deriving DecidableEq, Repr

/-- The state at the start of a session: all refs at their `useRef` initial
values, published state at its `useState` initial values. -/
def initState : DetectionState where
  eyeClosedFrames := 0
  totalFrames := 0
  blinkTimestamps := []
  yawnTimestamps := []
  lastEyeState := true
  headPoseHistory := []
  lastHistoryUpdate := 0
  frameSkip := 0
  metrics := defaultMetrics
  alertLevel := .alert
  history := []

/-- Per-frame observations of a detected face, at the point where the
geometry primitives have already run: the averaged eye aspect ratio
`avgEAR`, the mouth-open ratio, and the head-pose angles. -/
structure FaceObs where
  avgEAR : ℚ
  mouthOpenRatio : ℚ
  pitch : ℚ
  yaw : ℚ
  roll : ℚ
deriving DecidableEq, Repr

/-- One invocation of the `detect` callback: the wall-clock time `Date.now()`
and the detector's result (`none` when no face was detected). -/
structure Frame where
  now : ℚ
  face : Option FaceObs
deriving DecidableEq, Repr

/-- The face-detected branch of `detect`: metric tracking, snapshot assembly,
publication and the periodic history append, in source order. -/
def processDetections (s : DetectionState) (now : ℚ) (o : FaceObs) : DetectionState :=
  let eyesOpen : Bool := decide (o.avgEAR > 0.2)
  let isYawning : Bool := decide (o.mouthOpenRatio > 0.5)
  -- Track PERCLOS
  let totalFrames := s.totalFrames + 1
  let eyeClosedFrames := if eyesOpen then s.eyeClosedFrames else s.eyeClosedFrames + 1
  let perclos : ℚ := ((eyeClosedFrames : ℚ) / (totalFrames : ℚ)) * 100
  -- Track blinks
  let blinkTimestamps :=
    if s.lastEyeState && !eyesOpen then
      (s.blinkTimestamps ++ [now]).filter (fun t => decide (now - t < 60000))
    else s.blinkTimestamps
  let lastEyeState := eyesOpen
  let blinkRate := blinkTimestamps.length
  -- Track yawns
  let yawnTimestamps := if isYawning then yawnRecord s.yawnTimestamps now else s.yawnTimestamps
  let yawnTimestamps := yawnTimestamps.filter (fun t => decide (now - t < 60000))
  let yawnFrequency := yawnTimestamps.length
  -- Track head nodding
  let headPoseHistory :=
    (s.headPoseHistory ++ [({ pitch := o.pitch, timestamp := now } : HeadSample)]).filter
      (fun h => decide (now - h.timestamp < 3000))
  let noddingDetected := noddingOf headPoseHistory
  let newMetrics : FatigueMetrics :=
    { perclos := (jsRound (perclos * 10) : ℚ) / 10
      blinkRate := (blinkRate : ℚ)
      blinkPattern := determineBlinkPattern (blinkRate : ℚ) blinkTimestamps
      yawnCount := yawnTimestamps.length
      yawnFrequency := yawnFrequency
      mouthOpenRatio := (jsRound (o.mouthOpenRatio * 100) : ℚ) / 100
      headPose :=
        { pitch := (jsRound o.pitch : ℚ)
          yaw := (jsRound o.yaw : ℚ)
          roll := (jsRound o.roll : ℚ) }
      noddingDetected := noddingDetected
      eyesOpen := eyesOpen
      faceDetected := true }
  let base : DetectionState :=
    { s with
      eyeClosedFrames := eyeClosedFrames
      totalFrames := totalFrames
      blinkTimestamps := blinkTimestamps
      yawnTimestamps := yawnTimestamps
      lastEyeState := lastEyeState
      headPoseHistory := headPoseHistory
      metrics := newMetrics
      alertLevel := determineAlertLevel newMetrics }
  -- Add to history every 5 seconds
  if now - s.lastHistoryUpdate > 5000 then
    { base with
      lastHistoryUpdate := now
      history :=
        appendHistory base.history
          { timestamp := now
            perclos := newMetrics.perclos
            alertLevel := determineAlertLevel newMetrics
            blinkRate := newMetrics.blinkRate
            yawnCount := newMetrics.yawnCount } }
  else base

/-- One invocation of `detect`: the frame-skip throttle, then either the
face-detected branch or the `faceDetected := false` metrics update. -/
def detectStep (s : DetectionState) (f : Frame) : DetectionState :=
  let s := { s with frameSkip := s.frameSkip + 1 }
  if s.frameSkip % 2 ≠ 0 then s
  else
    match f.face with
    | some o => processDetections s f.now o
    | none => { s with metrics := { s.metrics with faceDetected := false } }

/-- A run of the detection loop over a list of frames. -/
def runDetect (s : DetectionState) (fs : List Frame) : DetectionState :=
  fs.foldl detectStep s

/-- `stopDetection` from `useFaceDetection.ts`: cancels the scheduled frame
and resets the counters and lists it enumerates. -/
def stopDetection (s : DetectionState) : DetectionState :=
  { s with
    eyeClosedFrames := 0
    totalFrames := 0
    blinkTimestamps := []
    yawnTimestamps := []
    headPoseHistory := []
    frameSkip := 0 }

/-! ## Spec-side definitions (for refinement statements)

These two follow the wording of the specification ("consecutive inter-blink
intervals", "population variance of intervals") and are compared with the
source-derived `intervalsOf` / `varianceOf`. -/

/-- Spec wording: the list of consecutive differences of a timestamp list. -/
def specConsecutiveIntervals (ts : List ℚ) : List ℚ :=
  (ts.zip ts.tail).map fun p => p.2 - p.1

/-- Spec wording: the population variance of a list of values. -/
def specPopulationVariance (l : List ℚ) : ℚ :=
  (l.map fun x => (x - l.sum / l.length) ^ 2).sum / l.length

/-! ## Concrete scenario inputs -/

/-- A detected face with eyes assessed closed (`avgEAR ≤ 0.2`). -/
def faceClosed : FaceObs :=
  { avgEAR := 1/10, mouthOpenRatio := 0, pitch := 0, yaw := 0, roll := 0 }

/-- A detected face with eyes open and mouth closed. -/
def faceOpen : FaceObs :=
  { avgEAR := 1, mouthOpenRatio := 0, pitch := 0, yaw := 0, roll := 0 }

/-- A detected face with eyes open and mouth wide open (`mouthOpenRatio > 0.5`). -/
def faceYawn : FaceObs :=
  { avgEAR := 1, mouthOpenRatio := 1, pitch := 0, yaw := 0, roll := 0 }

/-- One blink recorded at t = 1000 ms, then a frame at t = 62001 ms (a gap of
61001 ms) with eyes open, i.e. no further blink.  Each pair of identical
frames accounts for the skip-every-other-invocation throttle. -/
def c2Frames : List Frame :=
  [ { now := 1000, face := some faceClosed }, { now := 1000, face := some faceClosed },
    { now := 62001, face := some faceOpen }, { now := 62001, face := some faceOpen } ]

/-- 122 detect invocations (61 processed frames), consecutive processed
frames 6000 ms apart so every processed frame appends a history sample. -/
def c3Frames : List Frame :=
  (List.range 122).map fun i =>
    { now := (6000 : ℚ) * ((i / 2 : ℕ) + 1), face := some faceOpen }

/-- One processed frame at t = 6000 ms with eyes closed: it flips
`lastEyeState` to `false` and sets `lastHistoryUpdate` to 6000. -/
def c4Frames : List Frame :=
  [ { now := 6000, face := some faceClosed }, { now := 6000, face := some faceClosed } ]

/-- Two processed mouth-open frames 2000 ms apart. -/
def c6aFrames : List Frame :=
  [ { now := 1000, face := some faceYawn }, { now := 1000, face := some faceYawn },
    { now := 3000, face := some faceYawn }, { now := 3000, face := some faceYawn } ]

/-- Two processed mouth-open frames 6000 ms apart. -/
def c6bFrames : List Frame :=
  [ { now := 1000, face := some faceYawn }, { now := 1000, face := some faceYawn },
    { now := 7000, face := some faceYawn }, { now := 7000, face := some faceYawn } ]

/-! ## Theorems -/

attribute [local semireducible] Rat.mul Rat.inv Rat.add Rat.sub Rat.ofScientific

/-- C1: `determineAlertLevel` is the ordered cascade: `critical` when
`perclos ≥ 70` or (`noddingDetected` and `perclos ≥ 40`); else `severe` when
`perclos ≥ 50` or `yawnFrequency ≥ 5`; else `fatigued` when `perclos ≥ 35` or
`yawnFrequency ≥ 3`; else `drowsy` when `perclos ≥ 25` or `blinkRate < 8` or
`blinkRate > 25`; else `alert`.  The boundary snapshots of the claim evaluate
to `critical`, `severe`, `drowsy` and `alert` respectively. -/
theorem C1_alert_cascade :
    (∀ m : FatigueMetrics,
      (determineAlertLevel m = .critical ↔
        (m.perclos ≥ 70 ∨ (m.noddingDetected ∧ m.perclos ≥ 40))) ∧
      (determineAlertLevel m = .severe ↔
        (¬(m.perclos ≥ 70 ∨ (m.noddingDetected ∧ m.perclos ≥ 40)) ∧
          (m.perclos ≥ 50 ∨ m.yawnFrequency ≥ 5))) ∧
      (determineAlertLevel m = .fatigued ↔
        (¬(m.perclos ≥ 70 ∨ (m.noddingDetected ∧ m.perclos ≥ 40)) ∧
          ¬(m.perclos ≥ 50 ∨ m.yawnFrequency ≥ 5) ∧
          (m.perclos ≥ 35 ∨ m.yawnFrequency ≥ 3))) ∧
      (determineAlertLevel m = .drowsy ↔
        (¬(m.perclos ≥ 70 ∨ (m.noddingDetected ∧ m.perclos ≥ 40)) ∧
          ¬(m.perclos ≥ 50 ∨ m.yawnFrequency ≥ 5) ∧
          ¬(m.perclos ≥ 35 ∨ m.yawnFrequency ≥ 3) ∧
          (m.perclos ≥ 25 ∨ m.blinkRate < 8 ∨ m.blinkRate > 25))) ∧
      (determineAlertLevel m = .alert ↔
        (¬(m.perclos ≥ 70 ∨ (m.noddingDetected ∧ m.perclos ≥ 40)) ∧
          ¬(m.perclos ≥ 50 ∨ m.yawnFrequency ≥ 5) ∧
          ¬(m.perclos ≥ 35 ∨ m.yawnFrequency ≥ 3) ∧
          ¬(m.perclos ≥ 25 ∨ m.blinkRate < 8 ∨ m.blinkRate > 25)))) ∧
    determineAlertLevel { defaultMetrics with perclos := 70 } = .critical ∧
    determineAlertLevel { defaultMetrics with perclos := 69.9, yawnFrequency := 5 } = .severe ∧
    determineAlertLevel { defaultMetrics with perclos := 25, blinkRate := 15 } = .drowsy ∧
    determineAlertLevel { defaultMetrics with perclos := 10, blinkRate := 15 } = .alert := by
  refine ⟨fun m => ?_, by decide, by decide, by decide, by decide⟩
  unfold determineAlertLevel
  split_ifs with h1 h2 h3 h4 <;> simp_all

/-- C10: before any frame has been processed the published metrics are
`defaultMetrics`: `blinkRate = 15`, `eyesOpen = true`, `perclos = 0`,
`yawnFrequency = 0`, `noddingDetected = false`, `faceDetected = false`; the
classifier maps this snapshot to `alert`, and the same snapshot with a
default `blinkRate` of `0` would instead map to `drowsy` via the
`blinkRate < 8` clause. -/
theorem C10_default_metrics :
    initState.metrics = defaultMetrics ∧
    defaultMetrics.blinkRate = 15 ∧
    defaultMetrics.eyesOpen = true ∧
    defaultMetrics.perclos = 0 ∧
    defaultMetrics.yawnFrequency = 0 ∧
    defaultMetrics.noddingDetected = false ∧
    defaultMetrics.faceDetected = false ∧
    (8 : ℚ) ≤ defaultMetrics.blinkRate ∧ defaultMetrics.blinkRate ≤ 25 ∧
    determineAlertLevel defaultMetrics = .alert ∧
    determineAlertLevel { defaultMetrics with blinkRate := 0 } = .drowsy := by
  decide

/-- C7: `noddingDetected` is exactly `noddingOf` of the pruned 3-second pitch
window, and `noddingOf` is true iff the window holds strictly more than 10
samples and the pitch spread exceeds 15°; with at most 10 samples it is
false regardless of the spread.  Concretely: 11 samples spanning 16° give
`true`, 11 samples spanning 14° give `false`, 10 samples spanning 100° give
`false`. -/
theorem C7_nodding_detection :
    (∀ (s : DetectionState) (now : ℚ) (o : FaceObs),
      (processDetections s now o).metrics.noddingDetected =
        noddingOf (processDetections s now o).headPoseHistory) ∧
    (∀ w : List HeadSample,
      (noddingOf w = true ↔
        (10 < w.length ∧
          listMax (w.map HeadSample.pitch) - listMin (w.map HeadSample.pitch) > 15))) ∧
    (∀ w : List HeadSample, w.length ≤ 10 → noddingOf w = false) ∧
    noddingOf ((List.range 11).map fun i => { pitch := if i = 0 then 16 else 0, timestamp := 0 }) = true ∧
    noddingOf ((List.range 11).map fun i => { pitch := if i = 0 then 14 else 0, timestamp := 0 }) = false ∧
    noddingOf ((List.range 10).map fun i => { pitch := if i = 0 then 100 else 0, timestamp := 0 }) = false := by
  refine ⟨fun s now o => ?_, fun w => ?_, fun w hw => ?_, by decide, by decide, by decide⟩
  · unfold processDetections
    dsimp only
    split <;> rfl
  · unfold noddingOf
    split_ifs with h <;> simp_all
  · unfold noddingOf
    split_ifs with h
    · omega
    · rfl

/-- C7 witness: `noddingOf` applied to a 10-sample window with a 100° spread
gives `false`, via the `length ≤ 10` clause of `C7_nodding_detection`. -/
theorem C7_nodding_detection_witness :
    noddingOf ((List.range 10).map fun i => { pitch := if i = 0 then 100 else 0, timestamp := 0 }) = false :=
  C7_nodding_detection.2.2.1
    ((List.range 10).map fun i => { pitch := if i = 0 then 100 else 0, timestamp := 0 })
    (by decide)

/-! ### Extraction lemmas for `processDetections` -/

/-- The blink list after a processed face frame: pushed and pruned on an
open→closed transition, untouched otherwise. -/
theorem processDetections_blinkTimestamps (s : DetectionState) (now : ℚ) (o : FaceObs) :
    (processDetections s now o).blinkTimestamps =
      if s.lastEyeState && !(decide (o.avgEAR > 0.2)) then
        (s.blinkTimestamps ++ [now]).filter (fun t => decide (now - t < 60000))
      else s.blinkTimestamps := by
  unfold processDetections
  dsimp only
  split <;> rfl

/-- The yawn list after a processed face frame: optionally recorded, then
pruned to the 60 s window. -/
theorem processDetections_yawnTimestamps (s : DetectionState) (now : ℚ) (o : FaceObs) :
    (processDetections s now o).yawnTimestamps =
      (if decide (o.mouthOpenRatio > 0.5) then yawnRecord s.yawnTimestamps now
        else s.yawnTimestamps).filter (fun t => decide (now - t < 60000)) := by
  unfold processDetections
  dsimp only
  split <;> rfl

/-- The pitch window after a processed face frame: pushed and pruned to the
3 s window. -/
theorem processDetections_headPoseHistory (s : DetectionState) (now : ℚ) (o : FaceObs) :
    (processDetections s now o).headPoseHistory =
      (s.headPoseHistory ++ [({ pitch := o.pitch, timestamp := now } : HeadSample)]).filter
        (fun h => decide (now - h.timestamp < 3000)) := by
  unfold processDetections
  dsimp only
  split <;> rfl

/-- The published blink rate is the length of the (post-update) blink list. -/
theorem processDetections_blinkRate (s : DetectionState) (now : ℚ) (o : FaceObs) :
    (processDetections s now o).metrics.blinkRate =
      ((processDetections s now o).blinkTimestamps.length : ℚ) := by
  unfold processDetections
  dsimp only
  split <;> rfl

/-- The published yawn frequency is the length of the pruned yawn list. -/
theorem processDetections_yawnFrequency (s : DetectionState) (now : ℚ) (o : FaceObs) :
    (processDetections s now o).metrics.yawnFrequency =
      (processDetections s now o).yawnTimestamps.length := by
  unfold processDetections
  dsimp only
  split <;> rfl

/-- The frame counters after a processed face frame. -/
theorem processDetections_counters (s : DetectionState) (now : ℚ) (o : FaceObs) :
    (processDetections s now o).totalFrames = s.totalFrames + 1 ∧
    (processDetections s now o).eyeClosedFrames =
      (if decide (o.avgEAR > 0.2) then s.eyeClosedFrames else s.eyeClosedFrames + 1) := by
  unfold processDetections
  dsimp only
  constructor <;> (split <;> rfl)

/-- The history after a processed face frame: appended via `appendHistory`
when more than 5000 ms elapsed since the last append, unchanged otherwise. -/
theorem processDetections_history (s : DetectionState) (now : ℚ) (o : FaceObs) :
    (processDetections s now o).history = s.history ∨
    ∃ e, (processDetections s now o).history = appendHistory s.history e := by
  unfold processDetections
  dsimp only
  split
  · exact Or.inr ⟨_, rfl⟩
  · exact Or.inl rfl

/-! ### Claim theorems (continued) -/

/-- C4 counterexample: `stopDetection` does not reset `lastEyeState` or
`lastHistoryUpdate`.  From the reachable state after `c4Frames` (one
processed eyes-closed frame at t = 6000), stopping leaves
`lastEyeState = false` (initial value: `true`) and
`lastHistoryUpdate = 6000` (initial value: `0`). -/
theorem C4_counterexample :
    (stopDetection (runDetect initState c4Frames)).lastEyeState = false ∧
    (stopDetection (runDetect initState c4Frames)).lastHistoryUpdate = 6000 ∧
    initState.lastEyeState = true ∧
    initState.lastHistoryUpdate = 0 := by
  decide

/-- C4 amended: `stopDetection` resets the cumulative closed-frame count,
cumulative total-frame count, blink timestamp list, yawn timestamp list,
pitch-history list and frame-skip counter to empty/zero, but leaves the
last-observed eye-open boolean and the last-history-append timestamp
unchanged; calling it twice in a row is safe and gives the same state. -/
theorem C4_stop_reset (s : DetectionState) :
    (stopDetection s).eyeClosedFrames = 0 ∧
    (stopDetection s).totalFrames = 0 ∧
    (stopDetection s).blinkTimestamps = [] ∧
    (stopDetection s).yawnTimestamps = [] ∧
    (stopDetection s).headPoseHistory = [] ∧
    (stopDetection s).frameSkip = 0 ∧
    (stopDetection s).lastEyeState = s.lastEyeState ∧
    (stopDetection s).lastHistoryUpdate = s.lastHistoryUpdate ∧
    stopDetection (stopDetection s) = stopDetection s :=
  ⟨rfl, rfl, rfl, rfl, rfl, rfl, rfl, rfl, rfl⟩

/-- The index loop of `determineBlinkPattern` computes the consecutive
differences of the timestamp list. -/
theorem intervalsOf_eq_spec (ts : List ℚ) :
    intervalsOf ts = specConsecutiveIntervals ts := by
  induction ts with
  | nil => rfl
  | cons a rest ih =>
    cases rest with
    | nil => rfl
    | cons b rest' =>
      simp only [intervalsOf, specConsecutiveIntervals, List.tail_cons, List.zip_cons_cons,
        List.map_cons] at ih ⊢
      exact congrArg _ ih

/-- The variance expression of `determineBlinkPattern` is the population
variance of its input. -/
theorem varianceOf_eq_spec (l : List ℚ) : varianceOf l = specPopulationVariance l := rfl

/-- C8: `determineBlinkPattern` returns `normal` for fewer than 5 timestamps,
else `irregular` when the population variance of the consecutive inter-blink
intervals exceeds 50000 ms² (taking priority over the rate checks), else
`slow` when `rate < 8`, else `rapid` when `rate > 25`, else `normal`.
Concretely, timestamps with intervals `[50, 5000, 80, 4000]` at rate 4 give
`irregular` (overriding `slow`), and intervals `[100, 100, 100, 100]` at
rate 10 give `normal`. -/
theorem C8_blink_pattern :
    (∀ (rate : ℚ) (ts : List ℚ),
      determineBlinkPattern rate ts =
        if ts.length < 5 then .normal
        else if specPopulationVariance (specConsecutiveIntervals ts) > 50000 then .irregular
        else if rate < 8 then .slow
        else if rate > 25 then .rapid
        else .normal) ∧
    determineBlinkPattern 4 [0, 50, 5050, 5130, 9130] = .irregular ∧
    determineBlinkPattern 10 [0, 100, 200, 300, 400] = .normal := by
  refine ⟨fun rate ts => ?_, by decide, by decide⟩
  unfold determineBlinkPattern
  rw [intervalsOf_eq_spec]
  rfl

/-- C9: on a processed frame with no face detected, the published metrics are
the previous metrics with only `faceDetected` forced to `false`, and no other
piece of state changes except the frame-skip counter — in particular neither
`totalFrames` nor `eyeClosedFrames` is incremented. -/
theorem C9_no_face (s : DetectionState) (now : ℚ)
    (h : (s.frameSkip + 1) % 2 = 0) :
    (detectStep s { now := now, face := none }).metrics =
      { s.metrics with faceDetected := false } ∧
    (detectStep s { now := now, face := none }).totalFrames = s.totalFrames ∧
    (detectStep s { now := now, face := none }).eyeClosedFrames = s.eyeClosedFrames ∧
    (detectStep s { now := now, face := none }).blinkTimestamps = s.blinkTimestamps ∧
    (detectStep s { now := now, face := none }).yawnTimestamps = s.yawnTimestamps ∧
    (detectStep s { now := now, face := none }).lastEyeState = s.lastEyeState ∧
    (detectStep s { now := now, face := none }).headPoseHistory = s.headPoseHistory ∧
    (detectStep s { now := now, face := none }).lastHistoryUpdate = s.lastHistoryUpdate ∧
    (detectStep s { now := now, face := none }).history = s.history ∧
    (detectStep s { now := now, face := none }).alertLevel = s.alertLevel ∧
    (detectStep s { now := now, face := none }).frameSkip = s.frameSkip + 1 := by
  unfold detectStep
  simp [h]

/-- C9 witness: from a state one invocation before a processed frame, a
no-face frame only clears `faceDetected` and leaves the counters at 0. -/
theorem C9_no_face_witness :
    ((initState.frameSkip + 1) % 2 = 0 → False) ∧
    (detectStep { initState with frameSkip := 1 } { now := 5000, face := none }).metrics =
      { initState.metrics with faceDetected := false } ∧
    (detectStep { initState with frameSkip := 1 } { now := 5000, face := none }).totalFrames = 0 :=
  ⟨by decide,
    (C9_no_face { initState with frameSkip := 1 } 5000 (by decide)).1,
    (C9_no_face { initState with frameSkip := 1 } 5000 (by decide)).2.1⟩

/-- One detect invocation preserves `eyeClosedFrames ≤ totalFrames`. -/
theorem detectStep_counters_le (s : DetectionState) (f : Frame)
    (h : s.eyeClosedFrames ≤ s.totalFrames) :
    (detectStep s f).eyeClosedFrames ≤ (detectStep s f).totalFrames := by
  unfold detectStep
  dsimp only
  split
  · exact h
  · cases f.face with
    | none => exact h
    | some o =>
      obtain ⟨ht, he⟩ := processDetections_counters { s with frameSkip := s.frameSkip + 1 } f.now o
      rw [ht, he]
      dsimp only
      split <;> omega

/-- Any run preserves `eyeClosedFrames ≤ totalFrames`. -/
theorem runDetect_counters_le (fs : List Frame) :
    ∀ s : DetectionState, s.eyeClosedFrames ≤ s.totalFrames →
      (runDetect s fs).eyeClosedFrames ≤ (runDetect s fs).totalFrames := by
  induction fs with
  | nil => exact fun s h => h
  | cons f rest ih =>
    intro s h
    exact ih (detectStep s f) (detectStep_counters_le s f h)

/-- C5: in every reachable session state `eyeClosedFrames ≤ totalFrames`,
and once at least one frame has been processed the PERCLOS formula
`(eyeClosedFrames / totalFrames) * 100` lies in `[0, 100]`. -/
theorem C5_perclos_bounds (fs : List Frame) :
    (runDetect initState fs).eyeClosedFrames ≤ (runDetect initState fs).totalFrames ∧
    (0 < (runDetect initState fs).totalFrames →
      0 ≤ ((runDetect initState fs).eyeClosedFrames : ℚ) /
            ((runDetect initState fs).totalFrames : ℚ) * 100 ∧
      ((runDetect initState fs).eyeClosedFrames : ℚ) /
            ((runDetect initState fs).totalFrames : ℚ) * 100 ≤ 100) := by
  have h := runDetect_counters_le fs initState (Nat.le_refl 0)
  refine ⟨h, fun hpos => ?_⟩
  have ht : (0 : ℚ) < ((runDetect initState fs).totalFrames : ℚ) := by exact_mod_cast hpos
  constructor
  · positivity
  · have h1 : ((runDetect initState fs).eyeClosedFrames : ℚ) /
        ((runDetect initState fs).totalFrames : ℚ) ≤ 1 :=
      (div_le_one ht).mpr (by exact_mod_cast h)
    nlinarith

/-- C5 witness: after the run `c4Frames` one frame has been processed with
eyes closed, and the PERCLOS formula evaluates inside `[0, 100]`. -/
theorem C5_perclos_bounds_witness :
    0 < (runDetect initState c4Frames).totalFrames ∧
    0 ≤ ((runDetect initState c4Frames).eyeClosedFrames : ℚ) /
          ((runDetect initState c4Frames).totalFrames : ℚ) * 100 ∧
    ((runDetect initState c4Frames).eyeClosedFrames : ℚ) /
          ((runDetect initState c4Frames).totalFrames : ℚ) * 100 ≤ 100 :=
  ⟨by decide, (C5_perclos_bounds c4Frames).2 (by decide)⟩

/-- Each history append keeps the most recent 60 entries and adds one. -/
theorem appendHistory_length (prev : List FatigueHistory) (e : FatigueHistory) :
    (appendHistory prev e).length = min prev.length 60 + 1 := by
  simp only [appendHistory, sliceLast60, List.length_append, List.length_drop,
    List.length_cons, List.length_nil]
  omega

/-- The appended buffer is a suffix of the full sequence: oldest entries are
the ones dropped. -/
theorem appendHistory_suffix (prev : List FatigueHistory) (e : FatigueHistory) :
    appendHistory prev e <:+ prev ++ [e] :=
  ⟨prev.take (prev.length - 60), by
    unfold appendHistory sliceLast60
    rw [← List.append_assoc, List.take_append_drop]⟩

/-- One detect invocation leaves the history unchanged or appends via
`appendHistory`. -/
theorem detectStep_history (s : DetectionState) (f : Frame) :
    (detectStep s f).history = s.history ∨
    ∃ e, (detectStep s f).history = appendHistory s.history e := by
  unfold detectStep
  dsimp only
  split
  · exact Or.inl rfl
  · cases f.face with
    | none => exact Or.inl rfl
    | some o => exact processDetections_history { s with frameSkip := s.frameSkip + 1 } f.now o

/-- Any run keeps the history length at most 61. -/
theorem runDetect_history_le (fs : List Frame) :
    ∀ s : DetectionState, s.history.length ≤ 61 →
      (runDetect s fs).history.length ≤ 61 := by
  induction fs with
  | nil => exact fun s h => h
  | cons f rest ih =>
    intro s h
    refine ih (detectStep s f) ?_
    rcases detectStep_history s f with heq | ⟨e, heq⟩
    · rw [heq]; exact h
    · rw [heq, appendHistory_length]; omega

/-- Folding `appendHistory` from an empty buffer retains exactly the most
recent `min 61 n` of the `n` appended entries, in order. -/
theorem foldl_appendHistory (es : List FatigueHistory) :
    es.foldl appendHistory [] = es.drop (es.length - 61) := by
  induction es using List.reverseRecOn with
  | nil => rfl
  | append_singleton xs e ih =>
    rw [List.foldl_append, List.foldl_cons, List.foldl_nil, ih]
    unfold appendHistory sliceLast60
    rw [List.length_drop, List.drop_drop, List.length_append, List.length_cons,
      List.length_nil, List.drop_append_of_le_length (by omega)]
    have harith : xs.length - 61 + (xs.length - (xs.length - 61) - 60) =
        xs.length + (0 + 1) - 61 := by omega
    rw [harith]

set_option maxRecDepth 40000 in
/-- C3 counterexample: the history buffer of a reachable state can hold 61
entries, one more than the claimed bound of 60.  The run `c3Frames` performs
61 processed frames, each more than 5000 ms after the previous append. -/
theorem C3_counterexample :
    (runDetect initState c3Frames).history.length = 61 := by
  decide

/-- C3 amended: in every reachable state the history buffer holds at most 61
entries (not 60: the code trims to the most recent 60 *before* appending).
Each append keeps the most recent `min 60 n` existing entries plus the new
sample, the result is a suffix of the append sequence (oldest dropped
first), every step either leaves the history unchanged or performs one such
append, and after any sequence of appends the buffer holds exactly the most
recent `min 61 n` samples in order. -/
theorem C3_history_bound :
    (∀ fs : List Frame, (runDetect initState fs).history.length ≤ 61) ∧
    (∀ (prev : List FatigueHistory) (e : FatigueHistory),
      (appendHistory prev e).length = min prev.length 60 + 1 ∧
      appendHistory prev e <:+ prev ++ [e]) ∧
    (∀ (s : DetectionState) (f : Frame),
      (detectStep s f).history = s.history ∨
      ∃ e, (detectStep s f).history = appendHistory s.history e) ∧
    (∀ es : List FatigueHistory, es.foldl appendHistory [] = es.drop (es.length - 61)) :=
  ⟨fun fs => runDetect_history_le fs initState (by decide),
   fun prev e => ⟨appendHistory_length prev e, appendHistory_suffix prev e⟩,
   detectStep_history,
   foldl_appendHistory⟩

set_option maxRecDepth 8000 in
/-- C2 counterexample: one blink is recorded at t = 1000 ms, then a frame at
t = 62001 ms is processed with no further blink; the stale timestamp (61001
ms old, outside the 60 s window) is still in the list when the count is
read, and the published blink rate is 1 instead of returning to 0. -/
theorem C2_counterexample :
    (runDetect initState c2Frames).blinkTimestamps = [1000] ∧
    (runDetect initState c2Frames).metrics.blinkRate = 1 ∧
    ¬((62001 : ℚ) - 1000 < 60000) := by
  decide

/-- C2 amended: at snapshot time the yawn and head-pitch lists contain only
in-window timestamps (60 s and 3 s windows), and the published yawn
frequency is the pruned count.  The blink list, however, is pruned only on
frames that record a blink (an open→closed transition): on such frames all
its entries are in-window and the published blink rate is the previous
in-window count plus one — so N transitions within 60 s yield
`blinkRate = N` — but on frames with no transition the list is not pruned,
so after a 61 s gap with no further blink the published rate keeps its old
value instead of returning to 0 (see `C2_counterexample`). -/
theorem C2_window_invariants (s : DetectionState) (now : ℚ) (o : FaceObs) :
    (∀ t ∈ (processDetections s now o).yawnTimestamps, now - t < 60000) ∧
    (∀ h ∈ (processDetections s now o).headPoseHistory, now - h.timestamp < 3000) ∧
    (processDetections s now o).metrics.yawnFrequency =
      (processDetections s now o).yawnTimestamps.length ∧
    (s.lastEyeState = true → o.avgEAR ≤ 0.2 →
      (∀ t ∈ (processDetections s now o).blinkTimestamps, now - t < 60000) ∧
      ((∀ t ∈ s.blinkTimestamps, now - t < 60000) →
        (processDetections s now o).metrics.blinkRate = (s.blinkTimestamps.length : ℚ) + 1)) := by
  have hyt : ∀ t ∈ (processDetections s now o).yawnTimestamps, now - t < 60000 := by
    rw [processDetections_yawnTimestamps]
    intro t ht
    simp only [List.mem_filter, decide_eq_true_eq] at ht
    exact ht.2
  have hph : ∀ h ∈ (processDetections s now o).headPoseHistory, now - h.timestamp < 3000 := by
    rw [processDetections_headPoseHistory]
    intro h hh
    simp only [List.mem_filter, decide_eq_true_eq] at hh
    exact hh.2
  refine ⟨hyt, hph, processDetections_yawnFrequency s now o, fun hlast hear => ?_⟩
  have hcond : (s.lastEyeState && !(decide (o.avgEAR > 0.2))) = true := by
    rw [hlast, decide_eq_false (not_lt.mpr hear)]
    rfl
  constructor
  · rw [processDetections_blinkTimestamps, if_pos hcond]
    intro t ht
    simp only [List.mem_filter, decide_eq_true_eq] at ht
    exact ht.2
  · intro hall
    rw [processDetections_blinkRate, processDetections_blinkTimestamps, if_pos hcond,
      List.filter_eq_self.mpr ?_]
    · rw [List.length_append, List.length_cons, List.length_nil]
      push_cast
      ring
    · intro t ht
      rcases List.mem_append.mp ht with hmem | hnow
      · exact decide_eq_true (hall t hmem)
      · have : t = now := by simpa using hnow
        subst this
        exact decide_eq_true (by norm_num)

/-- C2 witness: from the initial state, a processed eyes-closed frame at
t = 1000 records a blink; its list is fully in-window and the published
blink rate is the previous count plus one. -/
theorem C2_window_invariants_witness :
    initState.lastEyeState = true ∧
    faceClosed.avgEAR ≤ 0.2 ∧
    (∀ t ∈ (processDetections initState 1000 faceClosed).blinkTimestamps,
      (1000 : ℚ) - t < 60000) ∧
    (processDetections initState 1000 faceClosed).metrics.blinkRate =
      (initState.blinkTimestamps.length : ℚ) + 1 :=
  ⟨rfl, by decide,
   ((C2_window_invariants initState 1000 faceClosed).2.2.2 rfl (by decide)).1,
   ((C2_window_invariants initState 1000 faceClosed).2.2.2 rfl (by decide)).2 (by decide)⟩

/-- In a `≤`-sorted timestamp list every element is at most the last one. -/
theorem sorted_le_of_getLast?_eq_some {ts : List ℚ} {last : ℚ}
    (hlast : ts.getLast? = some last) (hsort : ts.Sorted (· ≤ ·)) :
    ∀ t ∈ ts, t ≤ last := by
  obtain ⟨ys, rfl⟩ := List.getLast?_eq_some_iff.mp hlast
  rw [List.Sorted, List.pairwise_append] at hsort
  intro t ht
  rcases List.mem_append.mp ht with hmem | hl
  · exact hsort.2.2 t hmem last (List.mem_singleton_self last)
  · exact le_of_eq (by simpa using hl)

/-- C6: on a processed frame with `mouthOpenRatio > 0.5` the yawn list is
updated by `yawnRecord` and then pruned; for lists of positive, ascending
timestamps (as produced by the wall clock) `yawnRecord` appends a new event
iff no previously recorded event lies within the last 5000 ms, and leaves
the list unchanged otherwise.  Concretely, two mouth-open frames 2000 ms
apart yield exactly one recorded event and two frames 6000 ms apart yield
two.  (For a hypothetical recorded timestamp equal to the number 0 the code
would re-record regardless of the gap — JavaScript treats `0` as falsy —
hence the positivity hypothesis; `Date.now()` values are always positive.) -/
theorem C6_yawn_debounce :
    (∀ (ts : List ℚ) (now : ℚ), (∀ t ∈ ts, 0 < t) → ts.Sorted (· ≤ ·) →
      ((yawnRecord ts now = ts ++ [now]) ↔ ∀ t ∈ ts, now - t > 5000)) ∧
    (∀ (ts : List ℚ) (now : ℚ),
      yawnRecord ts now = ts ++ [now] ∨ yawnRecord ts now = ts) ∧
    (∀ (s : DetectionState) (now : ℚ) (o : FaceObs), o.mouthOpenRatio > 0.5 →
      (processDetections s now o).yawnTimestamps =
        (yawnRecord s.yawnTimestamps now).filter fun t => decide (now - t < 60000)) ∧
    (runDetect initState c6aFrames).metrics.yawnFrequency = 1 ∧
    (runDetect initState c6bFrames).metrics.yawnFrequency = 2 := by
  refine ⟨fun ts now hpos hsort => ?_, fun ts now => ?_, fun s now o h => ?_, by decide, by decide⟩
  · unfold yawnRecord
    cases hlast : ts.getLast? with
    | none =>
      rw [List.getLast?_eq_none_iff] at hlast
      subst hlast
      simp
    | some last =>
      have hmem : last ∈ ts := List.mem_of_getLast?_eq_some hlast
      have hmax := sorted_le_of_getLast?_eq_some hlast hsort
      dsimp only
      split_ifs with hc
      · rcases hc with h0 | hgt
        · exact absurd h0 (ne_of_gt (hpos last hmem))
        · simp only [true_iff]
          intro t ht
          have := hmax t ht
          linarith
      · push_neg at hc
        constructor
        · intro heq
          exact absurd (congrArg List.length heq) (by simp)
        · intro hall
          exact absurd (hall last hmem) (not_lt.mpr hc.2)
  · unfold yawnRecord
    cases ts.getLast? with
    | none => exact Or.inl rfl
    | some last =>
      dsimp only
      split_ifs
      · exact Or.inl rfl
      · exact Or.inr rfl
  · rw [processDetections_yawnTimestamps, if_pos (decide_eq_true h)]

/-- C6 witness: a second mouth-open frame 2000 ms after a recorded yawn at
t = 1000 does not append (2000 ms ≤ 5000 ms debounce). -/
theorem C6_yawn_debounce_witness :
    (yawnRecord [(1000 : ℚ)] 3000 = [(1000 : ℚ)] ++ [3000] ↔
      ∀ t ∈ [(1000 : ℚ)], (3000 : ℚ) - t > 5000) :=
  C6_yawn_debounce.1 [1000] 3000 (by decide) (by simp)

end DriverAlert
